import Mathlib

/-!
Shallow embedding of src/stats/Telemetry.ts (class Telemetry) from
MathieuPOUX/webrtc-client, together with theorems checking the spec claims.

The class is event driven: `report(stats, frequency)` wires a one-shot
release closure into the stats source and arms a timer (`setInterval` for a
non-zero frequency, `setTimeout` for frequency 0); each timer tick calls the
async `_send`, which serializes the stats and ships the payload either over a
`WebSocketReliable` (when the URL protocol starts with "ws") or as an HTTP
POST via `fetch` guarded by an `AbortController` (protocol starting with
"http").  We embed this as a small-step machine: a `TState` record mirroring
the fields `_ws`, `_fetch`, `_reporting` plus per-session bookkeeping, and a
total `step` function over events `report` / `release` / `tick` / `complete`
(the last one models the asynchronous settlement of an issued fetch).
Serialization is external input, so a tick event carries its outcome.
-/

namespace Telemetry

/-- Payload bytes or text on the wire: `_send` computes `body : string | ArrayBuffer`. -/
inductive Body
  | bin (bytes : List Nat)
  | str (s : String)
deriving Repr, DecidableEq

/-- Result of `stats.serialize()` as classified by `_send`: a successful value,
a falsy thrown value (the "wait to be ready" signal, absorbed silently), or a
truthy thrown value (rethrown, then caught and logged by the tick). -/
inductive SerResult
  | ok (d : Body)
  | notReady
  | fail (msg : String)
deriving Repr, DecidableEq

/-- Modelled from the spec: `WebSocketReliable` (src/utils/WebSocketReliable.ts
is not under src/).  Per the spec the socket Channel exposes open / close /
send and a `queueing` list of payloads accepted but not yet flushed; a freshly
constructed socket is closed, `open` makes it non-closed, `close` tears it
down, and `send` appends the payload to the outgoing queue. -/
structure WS where
  closed : Bool
  queueing : List Body
deriving Repr, DecidableEq

/-- Modelled from the spec: opening the socket (`this._ws.open(this._url)`). -/
def WS.openConn (w : WS) : WS := { w with closed := false }

/-- Modelled from the spec: closing the socket (`this._ws.close()`). -/
def WS.closeConn (w : WS) : WS := { w with closed := true }

/-- Modelled from the spec: `this._ws.send(body)` enqueues the payload. -/
def WS.send (w : WS) (b : Body) : WS := { w with queueing := w.queueing ++ [b] }

/-- One HTTP POST issued by the HTTP branch of `_send`.  `aborted` records that
its `AbortController` fired; `settled` that the request finished (success or
failure); `delivered` that the payload actually reached the destination. -/
structure Req where
  payload : Body
  aborted : Bool
  settled : Bool
  delivered : Bool
deriving Repr, DecidableEq

/-- Micro-actions recorded in order of execution inside the timer callbacks,
used to settle ordering claims: `released i` is session i's release closure
body running, `sendAttempt i` is session i entering `_send` (the
serialize-and-transmit attempt of a tick). -/
inductive Act
  | released (i : Nat)
  | sendAttempt (i : Nat)
deriving Repr, DecidableEq

/-- Per-`report` call state: the closure environment of `report(stats, frequency)`.
`released` models the one-shot token (`release === undefined` after first
call), `timerCleared` models `clearInterval(interval)`, `ticks` counts how
many times the timer callback body has run (serialize+send attempts). -/
structure Session where
  name : String
  frequency : Nat
  released : Bool
  timerCleared : Bool
  ticks : Nat
deriving Repr, DecidableEq

/-- State of one `Telemetry` object plus observation bookkeeping.
`ws`, `fetchCtl`, `reporting` mirror the fields `_ws`, `_fetch` (as an index
into `reqs`), `_reporting`.  `reqs` lists every fetch ever issued;
`errorLogs` collects `onError` events, `logs` collects `onLog` events,
`closes` counts executions of the close-useless-connection block in the
release closure, `unhandled` counts promise rejections with no handler
attached (the `fetch` call in `_send` is neither awaited nor given a catch),
`trace` records the ordered micro-actions. -/
structure TState where
  ws : Option WS
  fetchCtl : Option Nat
  reqs : List Req
  reporting : Int
  sessions : List Session
  errorLogs : List String
  logs : List String
  closes : Nat
  unhandled : Nat
  trace : List Act
deriving Repr, DecidableEq

/-- JavaScript `String.prototype.startsWith`, embedded structurally on the
character list of a Lean string so that it evaluates by reduction. -/
def strStartsWith (s pre : String) : Bool :=
  pre.data.isPrefixOf s.data

/-- Constructor `new Telemetry(url)`: classify the parsed URL protocol.
A protocol starting with "ws" allocates a `WebSocketReliable`; otherwise a
protocol not starting with "http" throws; otherwise the HTTP mode is used
(no websocket).  `_reporting` starts at 0. -/
def mkTelemetry (protocol : String) : Except String TState :=
  if strStartsWith protocol "ws" then
    .ok { ws := some { closed := true, queueing := [] }, fetchCtl := none,
          reqs := [], reporting := 0, sessions := [], errorLogs := [],
          logs := [], closes := 0, unhandled := 0, trace := [] }
  else if strStartsWith protocol "http" then
    .ok { ws := none, fetchCtl := none, reqs := [], reporting := 0,
          sessions := [], errorLogs := [], logs := [], closes := 0,
          unhandled := 0, trace := [] }
  else
    .error ("Protocol " ++ protocol ++ " not supported")

/-- Mark request j aborted (`controller.abort()`). -/
def abortReq (reqs : List Req) (j : Nat) : List Req :=
  match reqs[j]? with
  | none => reqs
  | some r => reqs.set j { r with aborted := true }

/-- The close-useless-connection block run by the release closure when
`--this._reporting > 0` fails: close the websocket when present, abort the
pending fetch when present.  `closes` counts its executions. -/
def closeChannel (st : TState) : TState :=
  { st with closes := st.closes + 1,
            ws := st.ws.map WS.closeConn,
            reqs := match st.fetchCtl with
              | some j => abortReq st.reqs j
              | none => st.reqs }

/-- Body of the release closure installed as `stats.onRelease` for session i:
if the one-shot token is consumed it returns at once; otherwise it consumes
the token, clears the timer, logs the stop, decrements `_reporting` and, when
the decremented value is not positive, runs the close block. -/
def doRelease (st : TState) (i : Nat) : TState :=
  match st.sessions[i]? with
  | none => st
  | some s =>
    if s.released then st
    else
      let st1 := { st with
        sessions := st.sessions.set i { s with released := true, timerCleared := true },
        logs := st.logs ++ ["Stop " ++ s.name ++ " reporting"],
        reporting := st.reporting - 1,
        trace := st.trace ++ [Act.released i] }
      if st.reporting - 1 > 0 then st1 else closeChannel st1

/-- The transmission part of `_send` after a successful serialization:
websocket branch (reopen when closed, erase `queueing`, send) or HTTP branch
(abort the previous fetch when one exists, issue a new POST and remember its
controller). -/
def sendBody (st : TState) (b : Body) : TState :=
  match st.ws with
  | some w =>
    { st with ws := some (WS.send { (if w.closed then w.openConn else w) with
                                    queueing := ([] : List Body) } b) }
  | none =>
    { st with reqs := (match st.fetchCtl with
                        | some j => abortReq st.reqs j
                        | none => st.reqs)
                      ++ [{ payload := b, aborted := false, settled := false, delivered := false }],
              fetchCtl := some st.reqs.length }

/-- `await this._send(stats)` wrapped in the tick's try/catch, for session i
with serialize outcome r: a falsy thrown value returns silently; a truthy
thrown value propagates to the tick and becomes one `onError` log tagged with
the source name; a successful serialization transmits. -/
def doSend (st : TState) (i : Nat) (name : String) (r : SerResult) : TState :=
  let st := { st with trace := st.trace ++ [Act.sendAttempt i] }
  match r with
  | .notReady => st
  | .fail msg => { st with errorLogs := st.errorLogs ++ [name ++ " error, " ++ msg] }
  | .ok d => sendBody st d

/-- One firing of session i's timer callback with serialize outcome r.
The timer fires only while not cleared, and a frequency-0 timer
(`setTimeout`) fires at most once.  Inside the callback the code first runs
`if (!frequency && release) release();` and only then attempts `_send`. -/
def doTick (st : TState) (i : Nat) (r : SerResult) : TState :=
  match st.sessions[i]? with
  | none => st
  | some s =>
    if s.timerCleared then st
    else if s.frequency = 0 ∧ s.ticks ≠ 0 then st
    else
      let st := { st with sessions := st.sessions.set i { s with ticks := s.ticks + 1 } }
      let st := if s.frequency = 0 ∧ s.released = false then doRelease st i else st
      doSend st i s.name r

/-- The body of `report(stats, frequency)`: install the callbacks, arm the
timer, increment `_reporting`, log the start. -/
def doReport (st : TState) (name : String) (frequency : Nat) : TState :=
  { st with
    sessions := st.sessions ++ [{ name := name, frequency := frequency,
                                  released := false, timerCleared := false, ticks := 0 }],
    reporting := st.reporting + 1,
    logs := st.logs ++ ["Start " ++ name ++ " reporting every " ++ toString frequency ++ " seconds"] }

/-- Asynchronous settlement of the fetch issued as request j: on success of a
non-aborted request the payload is delivered; otherwise the promise rejects
and, no handler having been attached in `_send`, the rejection is unhandled. -/
def doComplete (st : TState) (j : Nat) (success : Bool) : TState :=
  match st.reqs[j]? with
  | none => st
  | some r =>
    if r.settled then st
    else if success ∧ r.aborted = false then
      { st with reqs := st.reqs.set j { r with settled := true, delivered := true } }
    else
      { st with reqs := st.reqs.set j { r with settled := true },
                unhandled := st.unhandled + 1 }

/-- Events of the machine: a `report` call, an invocation of a session's
release signal by its source, a timer tick with its serialize outcome, and
the settlement of an issued HTTP request. -/
inductive Event
  | report (name : String) (frequency : Nat)
  | release (i : Nat)
  | tick (i : Nat) (r : SerResult)
  | complete (j : Nat) (success : Bool)
deriving Repr, DecidableEq

/-- One step of the machine. -/
def step (st : TState) : Event → TState
  | .report name f => doReport st name f
  | .release i => doRelease st i
  | .tick i r => doTick st i r
  | .complete j success => doComplete st j success

/-- Run a list of events. -/
def run (st : TState) : List Event → TState
  | [] => st
  | e :: es => run (step st e) es

/-- A state is reachable when it is produced by some event trace from a
freshly constructed Telemetry. -/
def Reach (st : TState) : Prop :=
  ∃ protocol evs st0, mkTelemetry protocol = .ok st0 ∧ run st0 evs = st

/-- Number of sessions whose release token is still alive. -/
def aliveCount (st : TState) : Nat :=
  st.sessions.countP (fun s => !s.released)

/-! Concrete states used by the closed theorems and witnesses below. -/

/-- The freshly constructed state of a websocket Telemetry. -/
def telem0ws : TState :=
  { ws := some { closed := true, queueing := [] }, fetchCtl := none,
    reqs := [], reporting := 0, sessions := [], errorLogs := [],
    logs := [], closes := 0, unhandled := 0, trace := [] }

/-- The freshly constructed state of an HTTP Telemetry. -/
def telem0http : TState :=
  { ws := none, fetchCtl := none, reqs := [], reporting := 0,
    sessions := [], errorLogs := [], logs := [], closes := 0,
    unhandled := 0, trace := [] }

/-! Basic bookkeeping lemmas about the helper functions. -/

theorem abortReq_length (reqs : List Req) (j : Nat) :
    (abortReq reqs j).length = reqs.length := by
  unfold abortReq
  cases h : reqs[j]? <;> simp

theorem closeChannel_sessions (st : TState) : (closeChannel st).sessions = st.sessions := rfl

theorem closeChannel_reporting (st : TState) : (closeChannel st).reporting = st.reporting := rfl

theorem closeChannel_trace (st : TState) : (closeChannel st).trace = st.trace := rfl

theorem closeChannel_errorLogs (st : TState) : (closeChannel st).errorLogs = st.errorLogs := rfl

theorem closeChannel_closes (st : TState) : (closeChannel st).closes = st.closes + 1 := rfl

theorem closeChannel_reqs_length (st : TState) :
    (closeChannel st).reqs.length = st.reqs.length := by
  show (match st.fetchCtl with
        | some j => abortReq st.reqs j
        | none => st.reqs).length = st.reqs.length
  cases h : st.fetchCtl <;> simp [abortReq_length]

theorem sendBody_sessions (st : TState) (b : Body) :
    (sendBody st b).sessions = st.sessions := by
  unfold sendBody
  cases h : st.ws <;> simp

theorem sendBody_reporting (st : TState) (b : Body) :
    (sendBody st b).reporting = st.reporting := by
  unfold sendBody
  cases h : st.ws <;> simp

theorem sendBody_trace (st : TState) (b : Body) :
    (sendBody st b).trace = st.trace := by
  unfold sendBody
  cases h : st.ws <;> simp

theorem sendBody_errorLogs (st : TState) (b : Body) :
    (sendBody st b).errorLogs = st.errorLogs := by
  unfold sendBody
  cases h : st.ws <;> simp

theorem sendBody_closes (st : TState) (b : Body) :
    (sendBody st b).closes = st.closes := by
  unfold sendBody
  cases h : st.ws <;> simp

theorem doSend_sessions (st : TState) (i : Nat) (name : String) (r : SerResult) :
    (doSend st i name r).sessions = st.sessions := by
  unfold doSend
  cases r <;> simp [sendBody_sessions]

theorem doSend_reporting (st : TState) (i : Nat) (name : String) (r : SerResult) :
    (doSend st i name r).reporting = st.reporting := by
  unfold doSend
  cases r <;> simp [sendBody_reporting]

theorem doSend_trace (st : TState) (i : Nat) (name : String) (r : SerResult) :
    (doSend st i name r).trace = st.trace ++ [Act.sendAttempt i] := by
  unfold doSend
  cases r <;> simp [sendBody_trace]

theorem doSend_closes (st : TState) (i : Nat) (name : String) (r : SerResult) :
    (doSend st i name r).closes = st.closes := by
  unfold doSend
  cases r <;> simp [sendBody_closes]

theorem doComplete_sessions (st : TState) (j : Nat) (success : Bool) :
    (doComplete st j success).sessions = st.sessions := by
  unfold doComplete
  cases h : st.reqs[j]? with
  | none => rfl
  | some r =>
    by_cases hr : r.settled <;> by_cases hs : success ∧ r.aborted = false <;> simp [hr, hs]

theorem doComplete_reporting (st : TState) (j : Nat) (success : Bool) :
    (doComplete st j success).reporting = st.reporting := by
  unfold doComplete
  cases h : st.reqs[j]? with
  | none => rfl
  | some r =>
    by_cases hr : r.settled <;> by_cases hs : success ∧ r.aborted = false <;> simp [hr, hs]

/-! Characterizations of the release closure. -/

theorem doRelease_none (st : TState) (i : Nat) (h : st.sessions[i]? = none) :
    doRelease st i = st := by
  unfold doRelease
  simp [h]

theorem doRelease_released (st : TState) (i : Nat) (s : Session)
    (h : st.sessions[i]? = some s) (hr : s.released = true) :
    doRelease st i = st := by
  unfold doRelease
  simp [h, hr]

/-- The intermediate state built by the release closure before the ownership
check, for session i with pre-release session record s. -/
def releasedState (st : TState) (i : Nat) (s : Session) : TState :=
  { st with
    sessions := st.sessions.set i { s with released := true, timerCleared := true },
    logs := st.logs ++ ["Stop " ++ s.name ++ " reporting"],
    reporting := st.reporting - 1,
    trace := st.trace ++ [Act.released i] }

theorem doRelease_alive (st : TState) (i : Nat) (s : Session)
    (h : st.sessions[i]? = some s) (hr : s.released = false) :
    doRelease st i =
      if st.reporting - 1 > 0 then releasedState st i s
      else closeChannel (releasedState st i s) := by
  unfold doRelease
  simp [h, hr, releasedState]

theorem doRelease_alive_reporting (st : TState) (i : Nat) (s : Session)
    (h : st.sessions[i]? = some s) (hr : s.released = false) :
    (doRelease st i).reporting = st.reporting - 1 := by
  rw [doRelease_alive st i s h hr]
  split
  · rfl
  · rw [closeChannel_reporting]
    rfl

theorem doRelease_alive_sessions (st : TState) (i : Nat) (s : Session)
    (h : st.sessions[i]? = some s) (hr : s.released = false) :
    (doRelease st i).sessions
      = st.sessions.set i { s with released := true, timerCleared := true } := by
  rw [doRelease_alive st i s h hr]
  split
  · rfl
  · rw [closeChannel_sessions]
    rfl

theorem doRelease_alive_trace (st : TState) (i : Nat) (s : Session)
    (h : st.sessions[i]? = some s) (hr : s.released = false) :
    (doRelease st i).trace = st.trace ++ [Act.released i] := by
  rw [doRelease_alive st i s h hr]
  split
  · rfl
  · rw [closeChannel_trace]
    rfl

theorem doRelease_alive_closes (st : TState) (i : Nat) (s : Session)
    (h : st.sessions[i]? = some s) (hr : s.released = false) :
    (doRelease st i).closes
      = if st.reporting - 1 > 0 then st.closes else st.closes + 1 := by
  rw [doRelease_alive st i s h hr]
  split
  · rfl
  · rw [closeChannel_closes]
    rfl

theorem doRelease_alive_errorLogs (st : TState) (i : Nat) (s : Session)
    (h : st.sessions[i]? = some s) (hr : s.released = false) :
    (doRelease st i).errorLogs = st.errorLogs := by
  rw [doRelease_alive st i s h hr]
  split
  · rfl
  · rw [closeChannel_errorLogs]
    rfl

theorem doRelease_alive_ws (st : TState) (i : Nat) (s : Session)
    (h : st.sessions[i]? = some s) (hr : s.released = false) :
    (doRelease st i).ws
      = if st.reporting - 1 > 0 then st.ws else st.ws.map WS.closeConn := by
  rw [doRelease_alive st i s h hr]
  split
  · rfl
  · rfl

theorem doRelease_reqs_length (st : TState) (i : Nat) :
    (doRelease st i).reqs.length = st.reqs.length := by
  unfold doRelease
  cases h : st.sessions[i]? with
  | none => rfl
  | some s =>
    by_cases hr : s.released
    · simp [hr]
    · simp [hr]
      split
      · rfl
      · exact closeChannel_reqs_length _

/-! Characterizations of one timer firing. -/

theorem doTick_none (st : TState) (i : Nat) (r : SerResult)
    (h : st.sessions[i]? = none) : doTick st i r = st := by
  unfold doTick
  simp [h]

theorem doTick_cleared (st : TState) (i : Nat) (s : Session) (r : SerResult)
    (h : st.sessions[i]? = some s) (hc : s.timerCleared = true) :
    doTick st i r = st := by
  unfold doTick
  simp [h, hc]

theorem doTick_expired (st : TState) (i : Nat) (s : Session) (r : SerResult)
    (h : st.sessions[i]? = some s) (hc : s.timerCleared = false)
    (hf : s.frequency = 0) (ht : s.ticks ≠ 0) :
    doTick st i r = st := by
  unfold doTick
  simp [h, hc, hf, ht]

/-- The state after the tick body bumped the tick counter of session i. -/
def tickedState (st : TState) (i : Nat) (s : Session) : TState :=
  { st with sessions := st.sessions.set i { s with ticks := s.ticks + 1 } }

theorem doTick_pos (st : TState) (i : Nat) (s : Session) (r : SerResult)
    (h : st.sessions[i]? = some s) (hc : s.timerCleared = false)
    (hf : s.frequency ≠ 0) :
    doTick st i r = doSend (tickedState st i s) i s.name r := by
  unfold doTick
  simp [h, hc, hf, tickedState]

theorem doTick_zero (st : TState) (i : Nat) (s : Session) (r : SerResult)
    (h : st.sessions[i]? = some s) (hc : s.timerCleared = false)
    (hf : s.frequency = 0) (ht : s.ticks = 0) (hr : s.released = false) :
    doTick st i r = doSend (doRelease (tickedState st i s) i) i s.name r := by
  unfold doTick
  simp [h, hc, hf, ht, hr, tickedState]

theorem doTick_zero_dead (st : TState) (i : Nat) (s : Session) (r : SerResult)
    (h : st.sessions[i]? = some s) (hc : s.timerCleared = false)
    (hf : s.frequency = 0) (ht : s.ticks = 0) (hr : s.released = true) :
    doTick st i r = doSend (tickedState st i s) i s.name r := by
  unfold doTick
  simp [h, hc, hf, ht, hr, tickedState]

theorem doRelease_errorLogs (st : TState) (i : Nat) :
    (doRelease st i).errorLogs = st.errorLogs := by
  cases hs : st.sessions[i]? with
  | none => rw [doRelease_none st i hs]
  | some s =>
    by_cases hr : s.released
    · rw [doRelease_released st i s hs hr]
    · rw [Bool.not_eq_true] at hr
      exact doRelease_alive_errorLogs st i s hs hr

theorem doRelease_ws_queueing (st : TState) (i : Nat) :
    (doRelease st i).ws.map WS.queueing = st.ws.map WS.queueing := by
  cases hs : st.sessions[i]? with
  | none => rw [doRelease_none st i hs]
  | some s =>
    by_cases hr : s.released
    · rw [doRelease_released st i s hs hr]
    · rw [Bool.not_eq_true] at hr
      rw [doRelease_alive_ws st i s hs hr]
      split
      · rfl
      · cases st.ws <;> rfl

theorem doRelease_sessions_other (st : TState) (j i : Nat) (hij : j ≠ i) :
    (doRelease st j).sessions[i]? = st.sessions[i]? := by
  cases hs : st.sessions[j]? with
  | none => rw [doRelease_none st j hs]
  | some s =>
    by_cases hr : s.released
    · rw [doRelease_released st j s hs hr]
    · rw [Bool.not_eq_true] at hr
      rw [doRelease_alive_sessions st j s hs hr]
      exact List.getElem?_set_ne hij

theorem doTick_sessions_other (st : TState) (j i : Nat) (r : SerResult) (hij : j ≠ i) :
    (doTick st j r).sessions[i]? = st.sessions[i]? := by
  cases hs : st.sessions[j]? with
  | none => rw [doTick_none st j r hs]
  | some s =>
    by_cases hc : s.timerCleared
    · rw [doTick_cleared st j s r hs hc]
    · rw [Bool.not_eq_true] at hc
      by_cases hf : s.frequency = 0
      · by_cases ht : s.ticks = 0
        · by_cases hr : s.released
          · rw [doTick_zero_dead st j s r hs hc hf ht hr, doSend_sessions]
            show ((tickedState st j s).sessions)[i]? = st.sessions[i]?
            exact List.getElem?_set_ne hij
          · rw [Bool.not_eq_true] at hr
            rw [doTick_zero st j s r hs hc hf ht hr, doSend_sessions,
                doRelease_sessions_other (tickedState st j s) j i hij]
            show ((tickedState st j s).sessions)[i]? = st.sessions[i]?
            exact List.getElem?_set_ne hij
        · rw [doTick_expired st j s r hs hc hf ht]
      · rw [doTick_pos st j s r hs hc hf, doSend_sessions]
        show ((tickedState st j s).sessions)[i]? = st.sessions[i]?
        exact List.getElem?_set_ne hij

/-- A snapshot of the total not-ready effects of one tick: no error log, no
new request issued, no change to the websocket queue (only a close at most). -/
theorem doTick_not_ready_effects (st : TState) (j : Nat) :
    (doTick st j SerResult.notReady).errorLogs = st.errorLogs
    ∧ (doTick st j SerResult.notReady).reqs.length = st.reqs.length
    ∧ (doTick st j SerResult.notReady).ws.map WS.queueing = st.ws.map WS.queueing := by
  cases hs : st.sessions[j]? with
  | none => rw [doTick_none st j _ hs]; exact ⟨rfl, rfl, rfl⟩
  | some s =>
    by_cases hc : s.timerCleared
    · rw [doTick_cleared st j s _ hs hc]; exact ⟨rfl, rfl, rfl⟩
    · rw [Bool.not_eq_true] at hc
      by_cases hf : s.frequency = 0
      · by_cases ht : s.ticks = 0
        · by_cases hr : s.released
          · rw [doTick_zero_dead st j s _ hs hc hf ht hr]
            exact ⟨rfl, rfl, rfl⟩
          · rw [Bool.not_eq_true] at hr
            rw [doTick_zero st j s _ hs hc hf ht hr]
            refine ⟨?_, ?_, ?_⟩
            · show (doRelease (tickedState st j s) j).errorLogs = st.errorLogs
              rw [doRelease_errorLogs]
              rfl
            · show (doRelease (tickedState st j s) j).reqs.length = st.reqs.length
              rw [doRelease_reqs_length]
              rfl
            · show (doRelease (tickedState st j s) j).ws.map WS.queueing
                  = st.ws.map WS.queueing
              rw [doRelease_ws_queueing]
              rfl
        · rw [doTick_expired st j s _ hs hc hf ht]; exact ⟨rfl, rfl, rfl⟩
      · rw [doTick_pos st j s _ hs hc hf]; exact ⟨rfl, rfl, rfl⟩

/-! Once a session's timer is cleared it stays cleared and its tick counter is
frozen, under every further event. -/

theorem cleared_frozen_step (st : TState) (i : Nat) (s : Session) (e : Event)
    (hs : st.sessions[i]? = some s) (hc : s.timerCleared = true) :
    ∃ s2, (step st e).sessions[i]? = some s2
      ∧ s2.timerCleared = true ∧ s2.ticks = s.ticks := by
  have hlen : i < st.sessions.length := (List.getElem?_eq_some.mp hs).1
  cases e with
  | report name f =>
    refine ⟨s, ?_, hc, rfl⟩
    show (st.sessions ++ [{ name := name, frequency := f, released := false,
                            timerCleared := false, ticks := 0 }])[i]? = some s
    rw [List.getElem?_append_left hlen]
    exact hs
  | release j =>
    simp only [step]
    by_cases hij : j = i
    · subst hij
      by_cases hrel : s.released
      · rw [doRelease_released st j s hs hrel]; exact ⟨s, hs, hc, rfl⟩
      · rw [Bool.not_eq_true] at hrel
        refine ⟨{ s with released := true, timerCleared := true }, ?_, rfl, rfl⟩
        rw [doRelease_alive_sessions st j s hs hrel]
        exact List.getElem?_set_eq_of_lt _ hlen
    · rw [doRelease_sessions_other st j i hij]
      exact ⟨s, hs, hc, rfl⟩
  | tick j r =>
    simp only [step]
    by_cases hij : j = i
    · subst hij
      rw [doTick_cleared st j s r hs hc]
      exact ⟨s, hs, hc, rfl⟩
    · rw [doTick_sessions_other st j i r hij]
      exact ⟨s, hs, hc, rfl⟩
  | complete j success =>
    refine ⟨s, ?_, hc, rfl⟩
    simp only [step]
    rw [doComplete_sessions]
    exact hs

theorem cleared_frozen_run (evs : List Event) : ∀ (st : TState) (i : Nat) (s : Session),
    st.sessions[i]? = some s → s.timerCleared = true →
    ∃ s2, (run st evs).sessions[i]? = some s2
      ∧ s2.timerCleared = true ∧ s2.ticks = s.ticks := by
  induction evs with
  | nil => intro st i s hs hc; exact ⟨s, hs, hc, rfl⟩
  | cons e es ih =>
    intro st i s hs hc
    obtain ⟨s2, h1, h2, h3⟩ := cleared_frozen_step st i s e hs hc
    obtain ⟨s3, g1, g2, g3⟩ := ih (step st e) i s2 h1 h2
    exact ⟨s3, g1, g2, by rw [g3, h3]⟩

/-! An aborted, undelivered request stays aborted and is never delivered. -/

theorem abortReq_preserves (reqs : List Req) (k j : Nat) (r : Req)
    (hj : reqs[j]? = some r) (hab : r.aborted = true) (hdel : r.delivered = false) :
    ∃ r2, (abortReq reqs k)[j]? = some r2 ∧ r2.aborted = true ∧ r2.delivered = false := by
  have hlen : j < reqs.length := (List.getElem?_eq_some.mp hj).1
  unfold abortReq
  cases hk : reqs[k]? with
  | none => exact ⟨r, hj, hab, hdel⟩
  | some rk =>
    by_cases hkj : k = j
    · subst hkj
      rw [hj] at hk
      cases hk
      exact ⟨{ r with aborted := true }, List.getElem?_set_eq_of_lt _ hlen, rfl, hdel⟩
    · exact ⟨r, by rw [List.getElem?_set_ne hkj]; exact hj, hab, hdel⟩

theorem closeChannel_reqs_preserves (st : TState) (j : Nat) (r : Req)
    (hj : st.reqs[j]? = some r) (hab : r.aborted = true) (hdel : r.delivered = false) :
    ∃ r2, (closeChannel st).reqs[j]? = some r2 ∧ r2.aborted = true ∧ r2.delivered = false := by
  show ∃ r2, (match st.fetchCtl with
              | some k => abortReq st.reqs k
              | none => st.reqs)[j]? = some r2 ∧ r2.aborted = true ∧ r2.delivered = false
  cases st.fetchCtl with
  | none => exact ⟨r, hj, hab, hdel⟩
  | some k => exact abortReq_preserves st.reqs k j r hj hab hdel

theorem doRelease_reqs_preserves (st : TState) (i : Nat) (j : Nat) (r : Req)
    (hj : st.reqs[j]? = some r) (hab : r.aborted = true) (hdel : r.delivered = false) :
    ∃ r2, (doRelease st i).reqs[j]? = some r2 ∧ r2.aborted = true ∧ r2.delivered = false := by
  cases hs : st.sessions[i]? with
  | none => rw [doRelease_none st i hs]; exact ⟨r, hj, hab, hdel⟩
  | some s =>
    by_cases hrel : s.released
    · rw [doRelease_released st i s hs hrel]; exact ⟨r, hj, hab, hdel⟩
    · rw [Bool.not_eq_true] at hrel
      rw [doRelease_alive st i s hs hrel]
      split
      · exact ⟨r, hj, hab, hdel⟩
      · exact closeChannel_reqs_preserves (releasedState st i s) j r hj hab hdel

theorem sendBody_reqs_preserves (st : TState) (b : Body) (j : Nat) (r : Req)
    (hj : st.reqs[j]? = some r) (hab : r.aborted = true) (hdel : r.delivered = false) :
    ∃ r2, (sendBody st b).reqs[j]? = some r2 ∧ r2.aborted = true ∧ r2.delivered = false := by
  have hlen : j < st.reqs.length := (List.getElem?_eq_some.mp hj).1
  unfold sendBody
  cases hws : st.ws with
  | some w => exact ⟨r, hj, hab, hdel⟩
  | none =>
    simp only
    cases hctl : st.fetchCtl with
    | none =>
      refine ⟨r, ?_, hab, hdel⟩
      rw [List.getElem?_append_left hlen]
      exact hj
    | some k =>
      obtain ⟨r2, h1, h2, h3⟩ := abortReq_preserves st.reqs k j r hj hab hdel
      refine ⟨r2, ?_, h2, h3⟩
      rw [List.getElem?_append_left (by rw [abortReq_length]; exact hlen)]
      exact h1

theorem doSend_reqs_preserves (st : TState) (i : Nat) (name : String) (sr : SerResult)
    (j : Nat) (r : Req)
    (hj : st.reqs[j]? = some r) (hab : r.aborted = true) (hdel : r.delivered = false) :
    ∃ r2, (doSend st i name sr).reqs[j]? = some r2
      ∧ r2.aborted = true ∧ r2.delivered = false := by
  unfold doSend
  cases sr with
  | ok d =>
    exact sendBody_reqs_preserves { st with trace := st.trace ++ [Act.sendAttempt i] } d j r hj hab hdel
  | notReady => exact ⟨r, hj, hab, hdel⟩
  | fail msg => exact ⟨r, hj, hab, hdel⟩

theorem aborted_undelivered_step (st : TState) (j : Nat) (r : Req) (e : Event)
    (hj : st.reqs[j]? = some r) (hab : r.aborted = true) (hdel : r.delivered = false) :
    ∃ r2, (step st e).reqs[j]? = some r2 ∧ r2.aborted = true ∧ r2.delivered = false := by
  have hlen : j < st.reqs.length := (List.getElem?_eq_some.mp hj).1
  cases e with
  | report name f => exact ⟨r, hj, hab, hdel⟩
  | release i => exact doRelease_reqs_preserves st i j r hj hab hdel
  | tick i sr =>
    simp only [step]
    cases hs : st.sessions[i]? with
    | none => rw [doTick_none st i sr hs]; exact ⟨r, hj, hab, hdel⟩
    | some s =>
      by_cases hc : s.timerCleared
      · rw [doTick_cleared st i s sr hs hc]; exact ⟨r, hj, hab, hdel⟩
      · rw [Bool.not_eq_true] at hc
        by_cases hf : s.frequency = 0
        · by_cases ht : s.ticks = 0
          · by_cases hrl : s.released
            · rw [doTick_zero_dead st i s sr hs hc hf ht hrl]
              exact doSend_reqs_preserves (tickedState st i s) i s.name sr j r hj hab hdel
            · rw [Bool.not_eq_true] at hrl
              rw [doTick_zero st i s sr hs hc hf ht hrl]
              obtain ⟨r2, h1, h2, h3⟩ :=
                doRelease_reqs_preserves (tickedState st i s) i j r hj hab hdel
              exact doSend_reqs_preserves _ i s.name sr j r2 h1 h2 h3
          · rw [doTick_expired st i s sr hs hc hf ht]; exact ⟨r, hj, hab, hdel⟩
        · rw [doTick_pos st i s sr hs hc hf]
          exact doSend_reqs_preserves (tickedState st i s) i s.name sr j r hj hab hdel
  | complete k success =>
    simp only [step]
    unfold doComplete
    cases hk : st.reqs[k]? with
    | none => exact ⟨r, hj, hab, hdel⟩
    | some rk =>
      by_cases hkset : rk.settled
      · simp only [hkset, if_true]
        exact ⟨r, hj, hab, hdel⟩
      · simp only [hkset, if_false, Bool.false_eq_true]
        by_cases hkj : k = j
        · subst hkj
          rw [hj] at hk
          cases hk
          have hguard : ¬(success = true ∧ r.aborted = false) := by
            intro hcontra
            rw [hab] at hcontra
            exact absurd hcontra.2 (by simp)
          rw [if_neg hguard]
          exact ⟨{ r with settled := true },
            List.getElem?_set_eq_of_lt _ hlen, hab, hdel⟩
        · split
          · exact ⟨r, by rw [List.getElem?_set_ne hkj]; exact hj, hab, hdel⟩
          · exact ⟨r, by rw [List.getElem?_set_ne hkj]; exact hj, hab, hdel⟩

theorem aborted_undelivered_run (evs : List Event) : ∀ (st : TState) (j : Nat) (r : Req),
    st.reqs[j]? = some r → r.aborted = true → r.delivered = false →
    ∃ r2, (run st evs).reqs[j]? = some r2 ∧ r2.aborted = true ∧ r2.delivered = false := by
  induction evs with
  | nil => intro st j r hj hab hdel; exact ⟨r, hj, hab, hdel⟩
  | cons e es ih =>
    intro st j r hj hab hdel
    obtain ⟨r2, h1, h2, h3⟩ := aborted_undelivered_step st j r e hj hab hdel
    exact ih (step st e) j r2 h1 h2 h3

/-! The reference-count invariant: `_reporting` equals the number of sessions
whose release token has not been consumed. -/

/-- Replacing one element of a list shifts `countP` by the difference of the
predicate on the old and the new element. -/
theorem countP_set_exchange {α : Type} (p : α → Bool) :
    ∀ (l : List α) (i : Nat) (s t : α), l[i]? = some s →
      (l.set i t).countP p + (if p s then 1 else 0)
        = l.countP p + (if p t then 1 else 0)
  | [], _, _, _, h => by simp at h
  | a :: l, 0, s, t, h => by
    simp only [List.getElem?_cons_zero, Option.some.injEq] at h
    subst h
    simp [List.countP_cons]
    omega
  | a :: l, i + 1, s, t, h => by
    simp only [List.getElem?_cons_succ] at h
    have ih := countP_set_exchange p l i s t h
    simp [List.countP_cons]
    omega

/-- The Telemetry invariant relating `_reporting` to the live sessions. -/
def Inv (st : TState) : Prop := st.reporting = (aliveCount st : Int)

theorem inv_mk (protocol : String) (st0 : TState) (h : mkTelemetry protocol = .ok st0) :
    Inv st0 := by
  unfold mkTelemetry at h
  split at h
  · cases h
    simp [Inv, aliveCount]
  · split at h
    · cases h
      simp [Inv, aliveCount]
    · cases h

theorem inv_doRelease (st : TState) (i : Nat) (h : Inv st) : Inv (doRelease st i) := by
  cases hs : st.sessions[i]? with
  | none => rw [doRelease_none st i hs]; exact h
  | some s =>
    by_cases hr : s.released
    · rw [doRelease_released st i s hs hr]; exact h
    · rw [Bool.not_eq_true] at hr
      have hex := countP_set_exchange (fun s => !s.released) st.sessions i s
        { s with released := true, timerCleared := true } hs
      simp [hr] at hex
      have hrep := doRelease_alive_reporting st i s hs hr
      have hses := doRelease_alive_sessions st i s hs hr
      unfold Inv aliveCount at h ⊢
      rw [hrep, hses, h]
      omega

theorem inv_doTick (st : TState) (i : Nat) (r : SerResult) (h : Inv st) :
    Inv (doTick st i r) := by
  cases hs : st.sessions[i]? with
  | none => rw [doTick_none st i r hs]; exact h
  | some s =>
    by_cases hc : s.timerCleared
    · rw [doTick_cleared st i s r hs hc]; exact h
    · rw [Bool.not_eq_true] at hc
      have hticked : Inv (tickedState st i s) := by
        have hex := countP_set_exchange (fun s => !s.released) st.sessions i s
          { s with ticks := s.ticks + 1 } hs
        simp only [Inv, aliveCount, tickedState] at h ⊢
        simp at hex
        rw [h]
        omega
      by_cases hf : s.frequency = 0
      · by_cases ht : s.ticks = 0
        · by_cases hr : s.released
          · have hr' : doTick st i r = doSend (tickedState st i s) i s.name r := by
              unfold doTick
              simp [hs, hc, hf, ht, hr, tickedState]
            rw [hr']
            unfold Inv aliveCount at hticked ⊢
            rw [doSend_reporting, doSend_sessions]
            exact hticked
          · rw [Bool.not_eq_true] at hr
            rw [doTick_zero st i s r hs hc hf ht hr]
            have := inv_doRelease (tickedState st i s) i hticked
            unfold Inv aliveCount at this ⊢
            rw [doSend_reporting, doSend_sessions]
            exact this
        · rw [doTick_expired st i s r hs hc hf ht]; exact h
      · rw [doTick_pos st i s r hs hc hf]
        unfold Inv aliveCount at hticked ⊢
        rw [doSend_reporting, doSend_sessions]
        exact hticked

theorem inv_step (st : TState) (e : Event) (h : Inv st) : Inv (step st e) := by
  cases e with
  | report name f =>
    unfold Inv aliveCount at h ⊢
    simp only [step]
    unfold doReport
    simp [List.countP_append, List.countP_cons, List.countP_nil]
    omega
  | release i => exact inv_doRelease st i h
  | tick i r => exact inv_doTick st i r h
  | complete j success =>
    unfold Inv aliveCount at h ⊢
    simp only [step]
    rw [doComplete_reporting, doComplete_sessions]
    exact h

theorem inv_run (evs : List Event) : ∀ (st : TState), Inv st → Inv (run st evs) := by
  induction evs with
  | nil => intro st h; exact h
  | cons e es ih => intro st h; exact ih (step st e) (inv_step st e h)

theorem reach_inv (st : TState) (h : Reach st) : Inv st := by
  obtain ⟨protocol, evs, st0, h0, hrun⟩ := h
  rw [← hrun]
  exact inv_run evs st0 (inv_mk protocol st0 h0)

/-! The claims. -/

/-- C1: in every reachable Telemetry state the active-session counter
`_reporting` is nonnegative, and invoking the release signal of a session
whose token is still alive runs the close-useless-connection block exactly
when the decremented counter reaches zero: with more than one session still
reporting the release leaves the channel untouched (no close, websocket as
before), while the release of the last reporting session runs the close block
exactly once, ending with counter 0, the websocket (when present) closed and
the pending fetch (when present) aborted. -/
theorem release_close_gate (st : TState) (hst : Reach st) :
    0 ≤ st.reporting
    ∧ ∀ i s, st.sessions[i]? = some s → s.released = false →
        (1 < st.reporting →
            (step st (Event.release i)).closes = st.closes
            ∧ (step st (Event.release i)).ws = st.ws)
        ∧ (st.reporting = 1 →
            (step st (Event.release i)).closes = st.closes + 1
            ∧ (step st (Event.release i)).reporting = 0
            ∧ (step st (Event.release i)).ws = st.ws.map WS.closeConn) := by
  have hInv := reach_inv st hst
  constructor
  · rw [hInv]
    exact Int.natCast_nonneg _
  · intro i s hs hr
    constructor
    · intro hgt
      have hcond : st.reporting - 1 > 0 := by omega
      simp only [step]
      rw [doRelease_alive_closes st i s hs hr, doRelease_alive_ws st i s hs hr]
      rw [if_pos hcond, if_pos hcond]
      exact ⟨rfl, rfl⟩
    · intro heq
      have hcond : ¬(st.reporting - 1 > 0) := by omega
      simp only [step]
      rw [doRelease_alive_closes st i s hs hr, doRelease_alive_ws st i s hs hr,
          doRelease_alive_reporting st i s hs hr]
      rw [if_neg hcond, if_neg hcond]
      exact ⟨rfl, by omega, rfl⟩

/-- State with two live websocket sessions. -/
def stTwoLive : TState := run telem0ws [Event.report "A" 1, Event.report "B" 2]

/-- State after the first of the two sessions released. -/
def stOneLive : TState := step stTwoLive (Event.release 0)

theorem release_close_gate_checked :
    0 ≤ stOneLive.reporting
    ∧ (step stOneLive (Event.release 1)).closes = stOneLive.closes + 1
    ∧ (step stOneLive (Event.release 1)).reporting = 0
    ∧ (step stOneLive (Event.release 1)).ws = stOneLive.ws.map WS.closeConn := by
  have h := release_close_gate stOneLive
    ⟨"wss:", [Event.report "A" 1, Event.report "B" 2, Event.release 0], telem0ws,
     rfl, rfl⟩
  have h3 := (h.2 1 { name := "B", frequency := 2, released := false,
                      timerCleared := false, ticks := 0 } (by decide) rfl).2 (by decide)
  exact ⟨h.1, h3.1, h3.2.1, h3.2.2⟩

/-- C2: for a session whose release token is alive, invoking the release
signal decrements `_reporting` by one and consumes the token (timer cleared);
invoking it again is a complete no-op on the whole state, so two or more
invocations decrement exactly once, cancel the timer once and run the
channel-close check once. -/
theorem release_idempotent (st : TState) (i : Nat) (s : Session)
    (hs : st.sessions[i]? = some s) (hr : s.released = false) :
    (step st (Event.release i)).reporting = st.reporting - 1
    ∧ (step st (Event.release i)).sessions[i]?
        = some { s with released := true, timerCleared := true }
    ∧ step (step st (Event.release i)) (Event.release i) = step st (Event.release i) := by
  have hlen : i < st.sessions.length := (List.getElem?_eq_some.mp hs).1
  simp only [step]
  have hafter : (doRelease st i).sessions[i]?
      = some { s with released := true, timerCleared := true } := by
    rw [doRelease_alive_sessions st i s hs hr]
    exact List.getElem?_set_eq_of_lt _ hlen
  exact ⟨doRelease_alive_reporting st i s hs hr, hafter,
    doRelease_released (doRelease st i) i _ hafter rfl⟩

/-- State with one live websocket session of frequency 3. -/
def stC2 : TState := run telem0ws [Event.report "A" 3]

theorem release_idempotent_checked :
    (step stC2 (Event.release 0)).reporting = stC2.reporting - 1
    ∧ (step stC2 (Event.release 0)).sessions[0]?
        = some { name := "A", frequency := 3, released := true,
                 timerCleared := true, ticks := 0 }
    ∧ step (step stC2 (Event.release 0)) (Event.release 0)
        = step stC2 (Event.release 0) :=
  release_idempotent stC2 0
    { name := "A", frequency := 3, released := false, timerCleared := false, ticks := 0 }
    (by decide) rfl

/-- C3: `report(stats, 0)` arms a one-shot timer: after the single tick runs
(whatever the serialize outcome), `_reporting` is back to its value from
before the `report` call, the session is stopped (release consumed, timer
cleared) having performed exactly one serialize+send attempt, and under every
continuation of the run its attempt counter stays at one (no repetition). -/
theorem report_zero_single_shot (st : TState) (name : String) (r : SerResult) :
    (step (step st (Event.report name 0)) (Event.tick st.sessions.length r)).reporting
        = st.reporting
    ∧ (step (step st (Event.report name 0))
          (Event.tick st.sessions.length r)).sessions[st.sessions.length]?
        = some { name := name, frequency := 0, released := true,
                 timerCleared := true, ticks := 1 }
    ∧ ∀ evs, ∃ s2,
        (run (step (step st (Event.report name 0)) (Event.tick st.sessions.length r))
            evs).sessions[st.sessions.length]? = some s2
        ∧ s2.ticks = 1 ∧ s2.timerCleared = true := by
  have hs1 : (step st (Event.report name 0)).sessions
      = st.sessions ++ [{ name := name, frequency := 0, released := false,
                          timerCleared := false, ticks := 0 }] := rfl
  have hn1 : (step st (Event.report name 0)).sessions[st.sessions.length]?
      = some { name := name, frequency := 0, released := false,
               timerCleared := false, ticks := 0 } := by
    rw [hs1]
    exact List.getElem?_concat_length _ _
  have hlen1 : st.sessions.length < (step st (Event.report name 0)).sessions.length := by
    rw [hs1, List.length_append]
    simp
  have htick := doTick_zero (step st (Event.report name 0)) st.sessions.length
    { name := name, frequency := 0, released := false, timerCleared := false, ticks := 0 }
    r hn1 rfl rfl rfl rfl
  have hticked : (tickedState (step st (Event.report name 0)) st.sessions.length
      { name := name, frequency := 0, released := false,
        timerCleared := false, ticks := 0 }).sessions[st.sessions.length]?
      = some { name := name, frequency := 0, released := false,
               timerCleared := false, ticks := 1 } := by
    show ((step st (Event.report name 0)).sessions.set st.sessions.length
        _)[st.sessions.length]? = _
    exact List.getElem?_set_eq_of_lt _ hlen1
  have hlen2 : st.sessions.length
      < (tickedState (step st (Event.report name 0)) st.sessions.length
          { name := name, frequency := 0, released := false, timerCleared := false,
            ticks := 0 }).sessions.length := by
    show st.sessions.length
        < ((step st (Event.report name 0)).sessions.set st.sessions.length _).length
    rw [List.length_set]
    exact hlen1
  have hfinal : (step (step st (Event.report name 0))
      (Event.tick st.sessions.length r)).sessions[st.sessions.length]?
      = some { name := name, frequency := 0, released := true,
               timerCleared := true, ticks := 1 } := by
    show (doTick (step st (Event.report name 0)) st.sessions.length r).sessions[_]? = _
    rw [htick, doSend_sessions,
        doRelease_alive_sessions _ st.sessions.length _ hticked rfl]
    exact List.getElem?_set_eq_of_lt _ hlen2
  refine ⟨?_, hfinal, ?_⟩
  · show (doTick (step st (Event.report name 0)) st.sessions.length r).reporting = _
    rw [htick, doSend_reporting,
        doRelease_alive_reporting _ st.sessions.length _ hticked rfl]
    show (step st (Event.report name 0)).reporting - 1 = st.reporting
    show st.reporting + 1 - 1 = st.reporting
    omega
  · intro evs
    obtain ⟨s2, h1, h2, h3⟩ := cleared_frozen_run evs
      (step (step st (Event.report name 0)) (Event.tick st.sessions.length r))
      st.sessions.length
      { name := name, frequency := 0, released := true, timerCleared := true, ticks := 1 }
      hfinal rfl
    exact ⟨s2, h1, h3, h2⟩

/-- C4 amended, part of the evidence: the frequency-0 trace from construction,
one report and the single tick. -/
def c10Trace : List Event :=
  [Event.report "S" 0, Event.tick 0 (SerResult.ok (Body.str "x"))]

/-- C4 counterexample: on a concrete frequency-0 session the recorded order of
micro-actions inside the single tick is release first, then the
serialize+send attempt — not the claimed attempt-then-release order. -/
theorem zero_freq_release_first_cex :
    (run telem0ws c10Trace).trace = [Act.released 0, Act.sendAttempt 0]
    ∧ [Act.released 0, Act.sendAttempt 0] ≠ [Act.sendAttempt 0, Act.released 0] :=
  ⟨by decide, by decide⟩

/-- C4 (amended): within the single frequency-0 tick the session self-stops by
firing the release callback BEFORE the serialize+send attempt of that tick:
the tick appends the release action and then the send-attempt action to the
trace, and the counter is already decremented when the attempt happens. -/
theorem zero_freq_release_before_send (st : TState) (i : Nat) (s : Session) (r : SerResult)
    (hs : st.sessions[i]? = some s) (hc : s.timerCleared = false)
    (hf : s.frequency = 0) (ht : s.ticks = 0) (hr : s.released = false) :
    (step st (Event.tick i r)).trace = st.trace ++ [Act.released i, Act.sendAttempt i]
    ∧ (step st (Event.tick i r)).reporting = st.reporting - 1 := by
  have hlen : i < st.sessions.length := (List.getElem?_eq_some.mp hs).1
  have hticked : (tickedState st i s).sessions[i]? = some { s with ticks := s.ticks + 1 } := by
    show (st.sessions.set i _)[i]? = _
    exact List.getElem?_set_eq_of_lt _ hlen
  simp only [step]
  rw [doTick_zero st i s r hs hc hf ht hr]
  constructor
  · rw [doSend_trace, doRelease_alive_trace _ i _ hticked hr]
    show st.trace ++ [Act.released i] ++ [Act.sendAttempt i] = _
    rw [List.append_assoc]
    rfl
  · rw [doSend_reporting, doRelease_alive_reporting _ i _ hticked hr]
    rfl

/-- State with one live frequency-0 websocket session. -/
def stZero : TState := run telem0ws [Event.report "S" 0]

theorem zero_freq_release_before_send_checked :
    (step stZero (Event.tick 0 (SerResult.ok (Body.str "x")))).trace
        = stZero.trace ++ [Act.released 0, Act.sendAttempt 0]
    ∧ (step stZero (Event.tick 0 (SerResult.ok (Body.str "x")))).reporting
        = stZero.reporting - 1 :=
  zero_freq_release_before_send stZero 0
    { name := "S", frequency := 0, released := false, timerCleared := false, ticks := 0 }
    (SerResult.ok (Body.str "x")) (by decide) rfl rfl rfl rfl

/-- C5: the constructor classifies the destination scheme: a protocol starting
with "ws" yields a Telemetry whose channel is the websocket (a socket object
is allocated); otherwise a protocol starting with "http" yields an HTTP-mode
Telemetry with no websocket; any other protocol makes construction fail with
the not-supported error, producing no state. -/
theorem construct_scheme_classification (protocol : String) :
    (strStartsWith protocol "ws" = true →
        mkTelemetry protocol = .ok telem0ws
        ∧ telem0ws.ws = some { closed := true, queueing := [] }
        ∧ telem0ws.reporting = 0)
    ∧ (strStartsWith protocol "ws" = false → strStartsWith protocol "http" = true →
        mkTelemetry protocol = .ok telem0http
        ∧ telem0http.ws = none
        ∧ telem0http.reporting = 0)
    ∧ (strStartsWith protocol "ws" = false → strStartsWith protocol "http" = false →
        mkTelemetry protocol = .error ("Protocol " ++ protocol ++ " not supported")) := by
  refine ⟨fun h1 => ?_, fun h1 h2 => ?_, fun h1 h2 => ?_⟩
  · exact ⟨by simp [mkTelemetry, h1, telem0ws], rfl, rfl⟩
  · exact ⟨by simp [mkTelemetry, h1, h2, telem0http], rfl, rfl⟩
  · simp [mkTelemetry, h1, h2]

theorem construct_scheme_classification_checked :
    mkTelemetry "wss:" = .ok telem0ws
    ∧ mkTelemetry "https:" = .ok telem0http
    ∧ mkTelemetry "ftp:" = .error ("Protocol " ++ "ftp:" ++ " not supported") :=
  ⟨((construct_scheme_classification "wss:").1 (by decide)).1,
   ((construct_scheme_classification "https:").2.1 (by decide) (by decide)).1,
   (construct_scheme_classification "ftp:").2.2 (by decide) (by decide)⟩

/-- C6 counterexample: a frequency-0 session's tick whose serialization is not
ready still changes the counter: the proactive release fires at the start of
the tick, so `_reporting` drops from 1 to 0 even though no transmission and no
error log happen.  The state is reachable. -/
theorem tick_not_ready_zero_freq_counter_cex :
    Reach stZero
    ∧ stZero.reporting = 1
    ∧ (step stZero (Event.tick 0 SerResult.notReady)).reporting = 0
    ∧ (step stZero (Event.tick 0 SerResult.notReady)).errorLogs = []
    ∧ (step stZero (Event.tick 0 SerResult.notReady)).reqs = [] :=
  ⟨⟨"wss:", [Event.report "S" 0], telem0ws, rfl, rfl⟩,
   by decide, by decide, by decide, by decide⟩

/-- C6 (amended): a tick whose serialization signals not-ready performs no
transmission and emits no error log — for every session the tick leaves the
error log, the set of issued requests and the websocket queue unchanged — and
for a session of non-zero frequency the tick is a complete no-op apart from
the attempt bookkeeping: counter, channel and session flags unchanged.  For a
frequency-0 session the proactive release still fires (see the
counterexample), which is the one deviation from the claim as stated. -/
theorem tick_not_ready_silent (st : TState) (i : Nat) (s : Session)
    (hs : st.sessions[i]? = some s) (hc : s.timerCleared = false)
    (hf : s.frequency ≠ 0) :
    step st (Event.tick i SerResult.notReady)
      = { st with sessions := st.sessions.set i { s with ticks := s.ticks + 1 },
                  trace := st.trace ++ [Act.sendAttempt i] }
    ∧ ∀ st2 j, (step st2 (Event.tick j SerResult.notReady)).errorLogs = st2.errorLogs
        ∧ (step st2 (Event.tick j SerResult.notReady)).reqs.length = st2.reqs.length
        ∧ (step st2 (Event.tick j SerResult.notReady)).ws.map WS.queueing
            = st2.ws.map WS.queueing := by
  constructor
  · simp only [step]
    rw [doTick_pos st i s SerResult.notReady hs hc hf]
    rfl
  · intro st2 j
    exact doTick_not_ready_effects st2 j

/-- State with one live frequency-2 websocket session, for the C6 witness. -/
def stC6 : TState := run telem0ws [Event.report "S" 2]

theorem tick_not_ready_silent_checked :
    step stC6 (Event.tick 0 SerResult.notReady)
      = { stC6 with
          sessions := stC6.sessions.set 0
            { name := "S", frequency := 2, released := false,
              timerCleared := false, ticks := 0 + 1 },
          trace := stC6.trace ++ [Act.sendAttempt 0] }
    ∧ ∀ st2 j, (step st2 (Event.tick j SerResult.notReady)).errorLogs = st2.errorLogs
        ∧ (step st2 (Event.tick j SerResult.notReady)).reqs.length = st2.reqs.length
        ∧ (step st2 (Event.tick j SerResult.notReady)).ws.map WS.queueing
            = st2.ws.map WS.queueing :=
  tick_not_ready_silent stC6 0
    { name := "S", frequency := 2, released := false, timerCleared := false, ticks := 0 }
    (by decide) rfl (by decide)

/-- Events of the C7 counterexample: one HTTP session, one successful tick
issuing the POST, then the network failure of that POST. -/
def c7Trace : List Event :=
  [Event.report "S" 1, Event.tick 0 (SerResult.ok (Body.str "x")),
   Event.complete 0 false]

/-- C7 counterexample: when the HTTP POST of a tick fails, no error log is
emitted at all — the fetch promise was dropped without a handler, so the
failure surfaces as an unhandled promise rejection instead of the claimed
source-tagged error log. -/
theorem http_failure_unlogged_cex :
    mkTelemetry "https:" = .ok telem0http
    ∧ (run telem0http c7Trace).errorLogs = []
    ∧ (run telem0http c7Trace).unhandled = 1
    ∧ (run telem0http c7Trace).reqs
        = [{ payload := Body.str "x", aborted := false, settled := true,
             delivered := false }] :=
  ⟨rfl, by decide, by decide, by decide⟩

/-- C7 (amended): every failure thrown synchronously inside `_send` (the
serialization path) is caught at the tick boundary and becomes exactly one
error log tagged with the source name, with channel, counter and session
untouched; an HTTP transmission failure likewise never closes the channel,
stops the session or escapes the tick, but it is NOT converted into an error
log: the dropped fetch promise rejects unhandled. -/
theorem tick_failure_policy (st : TState) (i : Nat) (s : Session) (msg : String)
    (hs : st.sessions[i]? = some s) (hc : s.timerCleared = false) (hf : s.frequency ≠ 0)
    (st2 : TState) (j : Nat) (r : Req)
    (hj : st2.reqs[j]? = some r) (hsettled : r.settled = false) :
    step st (Event.tick i (SerResult.fail msg))
      = { st with sessions := st.sessions.set i { s with ticks := s.ticks + 1 },
                  trace := st.trace ++ [Act.sendAttempt i],
                  errorLogs := st.errorLogs ++ [s.name ++ " error, " ++ msg] }
    ∧ step st2 (Event.complete j false)
      = { st2 with reqs := st2.reqs.set j { r with settled := true },
                   unhandled := st2.unhandled + 1 } := by
  constructor
  · simp only [step]
    rw [doTick_pos st i s (SerResult.fail msg) hs hc hf]
    rfl
  · simp only [step]
    unfold doComplete
    rw [hj]
    simp [hsettled]

/-- State with one live frequency-1 HTTP session and its issued POST, for the
C7 witness. -/
def stC7 : TState := run telem0http [Event.report "S" 1, Event.tick 0 (SerResult.ok (Body.str "x"))]

theorem tick_failure_policy_checked :
    step stC7 (Event.tick 0 (SerResult.fail "boom"))
      = { stC7 with
          sessions := stC7.sessions.set 0
            { name := "S", frequency := 1, released := false,
              timerCleared := false, ticks := 1 + 1 },
          trace := stC7.trace ++ [Act.sendAttempt 0],
          errorLogs := stC7.errorLogs ++ ["S" ++ " error, " ++ "boom"] }
    ∧ step stC7 (Event.complete 0 false)
      = { stC7 with
          reqs := stC7.reqs.set 0
            { payload := Body.str "x", aborted := false, settled := true,
              delivered := false },
          unhandled := stC7.unhandled + 1 } :=
  tick_failure_policy stC7 0
    { name := "S", frequency := 1, released := false, timerCleared := false, ticks := 1 }
    "boom" (by decide) rfl (by decide) stC7 0
    { payload := Body.str "x", aborted := false, settled := false, delivered := false }
    (by decide) rfl

/-- C8: on an HTTP Telemetry (no websocket) with an in-flight request j, a new
`Send` first aborts request j via its controller and then issues its own POST,
which becomes the remembered in-flight request; after that, under every
continuation of the run, request j stays aborted and is never delivered, so
only the later payload can reach the destination. -/
theorem http_send_cancels_previous (st : TState) (j : Nat) (r : Req) (b : Body)
    (hws : st.ws = none) (hctl : st.fetchCtl = some j) (hj : st.reqs[j]? = some r)
    (_hpend : r.settled = false) (hdel : r.delivered = false) :
    (sendBody st b).reqs[j]? = some { r with aborted := true }
    ∧ (sendBody st b).fetchCtl = some st.reqs.length
    ∧ (sendBody st b).reqs[st.reqs.length]?
        = some { payload := b, aborted := false, settled := false, delivered := false }
    ∧ ∀ evs, ∃ r2, (run (sendBody st b) evs).reqs[j]? = some r2
        ∧ r2.aborted = true ∧ r2.delivered = false := by
  have hlen : j < st.reqs.length := (List.getElem?_eq_some.mp hj).1
  have hreqs : (sendBody st b).reqs
      = abortReq st.reqs j
        ++ [{ payload := b, aborted := false, settled := false, delivered := false }] := by
    unfold sendBody
    rw [hws]
    simp only [hctl]
  have habrt : (abortReq st.reqs j)[j]? = some { r with aborted := true } := by
    unfold abortReq
    rw [hj]
    exact List.getElem?_set_eq_of_lt _ hlen
  have h1 : (sendBody st b).reqs[j]? = some { r with aborted := true } := by
    rw [hreqs, List.getElem?_append_left (by rw [abortReq_length]; exact hlen)]
    exact habrt
  have h2 : (sendBody st b).fetchCtl = some st.reqs.length := by
    unfold sendBody
    rw [hws]
  have h3 : (sendBody st b).reqs[st.reqs.length]?
      = some { payload := b, aborted := false, settled := false, delivered := false } := by
    rw [hreqs]
    rw [show st.reqs.length = (abortReq st.reqs j).length from (abortReq_length st.reqs j).symm]
    exact List.getElem?_concat_length _ _
  refine ⟨h1, h2, h3, fun evs => ?_⟩
  exact aborted_undelivered_run evs (sendBody st b) j { r with aborted := true } h1 rfl hdel

theorem http_send_cancels_previous_checked :
    (sendBody stC7 (Body.str "y")).reqs[0]?
      = some { payload := Body.str "x", aborted := true, settled := false,
               delivered := false }
    ∧ (sendBody stC7 (Body.str "y")).fetchCtl = some stC7.reqs.length
    ∧ (sendBody stC7 (Body.str "y")).reqs[stC7.reqs.length]?
        = some { payload := Body.str "y", aborted := false, settled := false,
                 delivered := false }
    ∧ ∀ evs, ∃ r2, (run (sendBody stC7 (Body.str "y")) evs).reqs[0]? = some r2
        ∧ r2.aborted = true ∧ r2.delivered = false :=
  http_send_cancels_previous stC7 0
    { payload := Body.str "x", aborted := false, settled := false, delivered := false }
    (Body.str "y") rfl (by decide) (by decide) rfl rfl

/-- C9: on a websocket Telemetry every `Send` leaves the socket open (a closed
socket is reopened first) and leaves exactly the fresh payload in the outgoing
queue: whatever was queued before is discarded before the new payload is
enqueued, and no HTTP request is issued. -/
theorem ws_send_latest_only (st : TState) (w : WS) (b : Body) (hws : st.ws = some w) :
    (sendBody st b).ws = some { closed := false, queueing := [b] }
    ∧ (sendBody st b).reqs = st.reqs := by
  unfold sendBody
  rw [hws]
  cases hcl : w.closed <;>
    simp [WS.openConn, WS.send, hcl]

/-- State of a websocket Telemetry whose closed socket still holds a stale
queued payload, for the C9 witness. -/
def stC9 : TState := { telem0ws with ws := some { closed := true, queueing := [Body.str "stale"] } }

theorem ws_send_latest_only_checked :
    (sendBody stC9 (Body.str "fresh")).ws
      = some { closed := false, queueing := [Body.str "fresh"] }
    ∧ (sendBody stC9 (Body.str "fresh")).reqs = stC9.reqs :=
  ws_send_latest_only stC9 { closed := true, queueing := [Body.str "stale"] }
    (Body.str "fresh") rfl

/-- C10: concrete reachable run showing that "counter 0 implies channel
closed" is not an invariant: on a websocket Telemetry whose only session has
frequency 0, the single tick fires the release first (counter hits 0 and the
close block runs once, closing the socket) and performs the send afterwards,
which finds the socket closed and reopens it — the final state has
`_reporting = 0`, one close performed, and the websocket open again with the
payload queued. -/
theorem zero_freq_ws_reopened_after_close :
    mkTelemetry "wss:" = .ok telem0ws
    ∧ Reach (run telem0ws c10Trace)
    ∧ (run telem0ws c10Trace).reporting = 0
    ∧ (run telem0ws c10Trace).closes = 1
    ∧ (run telem0ws c10Trace).ws
        = some { closed := false, queueing := [Body.str "x"] } :=
  ⟨rfl, ⟨"wss:", c10Trace, telem0ws, rfl, rfl⟩, by decide, by decide, by decide⟩

end Telemetry
